import Mathlib

/-!
Verification development for the camera acquisition core of `lab-control-lib`
(`camera.py`, `lclib/manager.py`).

The stateful Python classes are shallowly embedded as pure Lean functions over
explicit state records.  Field and function names follow the source (camelCase
where Python uses snake_case).  Threading events (`do_acquire`, `acquire_done`,
`frame_queue_empty_flag`) are modelled as booleans of the state; the
acquisition loop body is modelled as a step function that also emits the
ordered list of observable actions (sink open/close, trigger call, event
set, ...) performed during one iteration.  External collaborators
(file writer process, frame streamer, manager RPC proxy) are opaque: calls to
them appear only as emitted actions, and the manager's answers are passed in
as explicit inputs.
-/

/-- Class constant `CameraBase.MAX_FPS` (camera.py line 97). -/
def MAX_FPS : ℚ := 5

/--
State of a `CameraBase` instance: the instance attributes set in `__init__`
(camera.py lines 119-168) together with the persisted configuration entries of
`LOCAL_DEFAULT_CONFIG` (lines 99-109) that the modelled operations read or
write.  Default values are the initial values from `__init__` /
`LOCAL_DEFAULT_CONFIG`.  `mgrScanPath` is the environment's answer to
`manager.getManager().scan_path` (`none` also covers an unreachable manager).
Exposure time and number live behind device-specific getters/setters; the
model stores them directly, which is what every subclass setter effectively
does.
-/
structure CamState where
  armed : Bool := false
  rolling : Bool := false
  autoArmed : Bool := false
  stopRollingFlag : Bool := false
  endAcquisition : Bool := false
  doAcquire : Bool := false
  acquireDone : Bool := false
  filename : Option String := none
  exposureTime : ℚ := 1
  exposureNumber : Nat := 1
  rollFps : ℚ := 5
  expTimeBeforeRoll : Option ℚ := none
  expNumBeforeRoll : Option Nat := none
  doBroadcast : Bool := true
  counter : Nat := 0
  fileFormat : String := "hdf5"
  saveMode : String := "append"
  basePath : String := ""
  scanPath : Option String := none
  mgrScanPath : Option String := none
  deriving DecidableEq

/-- Outcome of the guard section of `CameraBase.snap` (camera.py lines 212-229):
the code either refuses silently (rolling), refuses silently (no manager), or
proceeds with the acquisition.  None of these paths raises. -/
inductive SnapCheck
  | refusedRolling
  | noManager
  | proceed
  deriving DecidableEq

/--
Guard section of `CameraBase.snap` (camera.py lines 221-229).  `if
self.rolling: logger.warning(...); return` — a silent logged return, not an
exception; likewise for a missing manager.  The value is wrapped in `Except`
so that "raises" would be representable (`.error`); the code never takes that
path here.
-/
def snapCheck (s : CamState) (managerConnected : Bool) : Except String SnapCheck :=
  if s.rolling then .ok .refusedRolling
  else if !managerConnected then .ok .noManager
  else .ok .proceed

/--
`CameraBase.arm` (camera.py lines 509-550).  Raises when rolling; warns and
returns unchanged when already armed; otherwise applies the optional exposure
overrides (skipping the write when the value is unchanged), clears the
end/done/do flags, records the manager's scan path, runs the device `_arm`
hook (a no-op in `CameraBase`), starts the acquisition-loop thread (modelled
separately by `acqIteration`) and sets `armed`.
-/
def armCam (s : CamState) (expTime : Option ℚ) (expNum : Option Nat) :
    Except String CamState :=
  if s.rolling then .error "Camera is rolling. Call roll_off first."
  else if s.armed then .ok s
  else
    let s1 := match expTime with
      | none => s
      | some t => if t ≠ s.exposureTime then { s with exposureTime := t } else s
    let s2 := match expNum with
      | none => s1
      | some n => if n ≠ s1.exposureNumber then { s1 with exposureNumber := n } else s1
    let s3 := { s2 with endAcquisition := false, acquireDone := false, doAcquire := false }
    let s4 := { s3 with scanPath := s3.mgrScanPath }
    .ok { s4 with armed := true }

/--
The non-delegating branch of `CameraBase.disarm` (camera.py lines 574-588):
sets `end_acquisition`, joins the loop thread, runs the device `_disarm` hook
(no-op), clears `armed`.  Factored out because `roll_off` reaches `disarm`
with `stop_rolling_flag` already set, so only this branch can run there (the
source guards the mutual recursion with that flag). -/
def disarmPlain (s : CamState) : CamState :=
  { s with endAcquisition := true, armed := false }

/--
`CameraBase.roll_off` (camera.py lines 640-664).  No-op if not rolling; else
sets the stopping flag, disarms (necessarily through the plain branch, see
`disarmPlain`), clears `rolling`, and restores the saved exposure time and
number — note the source uses Python truthiness (`if
self._exposure_time_before_roll:`), so a saved value of `None` *or zero* is
not restored.
-/
def rollOff (s : CamState) : CamState :=
  if !s.rolling then s
  else
    let s1 := disarmPlain { s with stopRollingFlag := true }
    let s2 := { s1 with rolling := false }
    let s3 := match s2.expTimeBeforeRoll with
      | some t => if t ≠ 0 then { s2 with exposureTime := t } else s2
      | none => s2
    match s3.expNumBeforeRoll with
      | some n => if n ≠ 0 then { s3 with exposureNumber := n } else s3
      | none => s3

/-- `CameraBase.disarm` (camera.py lines 563-588): delegates to `roll_off`
when rolling and not already stopping, else runs the plain branch. -/
def disarmCam (s : CamState) : CamState :=
  if s.rolling && !s.stopRollingFlag then rollOff s else disarmPlain s

/-- The `roll_fps` property setter (camera.py lines 930-938): clamps to
`MAX_FPS` (with a logged warning) and stores.  The trailing
`if self.rolling: self.roll_on(fps)` re-entry cannot fire where this model is
used (inside `roll_on`'s fresh branch, where `rolling` is false). -/
def rollFpsSet (s : CamState) (v : ℚ) : CamState :=
  let f := if v > MAX_FPS then MAX_FPS else v
  { s with rollFps := f }

/--
The not-currently-rolling tail of `CameraBase.roll_on` (camera.py lines
610-637): resolve the fps argument (Python truthiness: `None` and `0` both
fall back to the stored `roll_fps`; otherwise the *unclamped* local value is
used for the exposure time while the clamped one is stored), enable broadcast
if off, clear the filename, save and overwrite exposure time (`1/fps`) and
exposure number (sentinel 100), arm if not armed (cannot fail: `rolling` is
false here, and on the error branch the state is returned unchanged), set
`rolling`, and fire the first trigger.
-/
def rollOnFresh (s : CamState) (fps : Option ℚ) : CamState :=
  let p := match fps with
    | none => (s.rollFps, s)
    | some f => if f = 0 then (s.rollFps, s) else (f, rollFpsSet s f)
  let f := p.1
  let s1 := p.2
  let s2 := if !s1.doBroadcast then { s1 with doBroadcast := true } else s1
  let s3 := { s2 with filename := none }
  let s4 := { s3 with expTimeBeforeRoll := some s3.exposureTime }
  let s5 := { s4 with exposureTime := 1 / f }
  let s6 := { s5 with expNumBeforeRoll := some s5.exposureNumber }
  let s7 := { s6 with exposureNumber := 100 }
  let s8 := if !s7.armed then
      (match armCam s7 none none with
        | .ok t => t
        | .error _ => s7)
    else s7
  let s9 := { s8 with rolling := true }
  { s9 with doAcquire := true }

/--
`CameraBase.roll_on` (camera.py lines 590-637).  Clears the stopping flag;
if already rolling and an fps is requested, compares the requested
time-per-frame `1/fps` against the *current exposure time* with tolerance
0.01: close enough is a logged no-op, otherwise `roll_off()` followed by a
recursive `roll_on(fps)` — after `roll_off` the camera is no longer rolling,
so the recursion (depth one) lands in the fresh branch; it is inlined here as
`rollOnFresh` after the recursive call's own clearing of the stopping flag.
(For `fps = 0` in the rolling branch the Python source would raise
`ZeroDivisionError` at `1/fps`; theorems about this branch assume a nonzero
fps.)
-/
def rollOn (s : CamState) (fps : Option ℚ) : CamState :=
  let s0 := { s with stopRollingFlag := false }
  if s0.rolling then
    match fps with
    | none => s0
    | some f =>
      if |s0.exposureTime - 1 / f| < 1 / 100 then s0
      else rollOnFresh { rollOff s0 with stopRollingFlag := false } (some f)
  else rollOnFresh s0 fps

/-!
## Acquisition loop

One iteration of the `while True` body of `CameraBase.acquisition_loop`
(camera.py lines 288-348), from the moment the `do_acquire` wait succeeded.
The observable actions performed by the iteration are emitted in order.
-/

/-- Observable actions of one acquisition-loop iteration, in program order:
request to the file-writer process to open/close a file, the call to the
device-specific `_trigger` (and its raising, when it fails), logging of the
caught exception, setting of the `acquire_done` and `do_acquire` events, the
call to `roll_off`, and the device `_rearm` hook. -/
inductive Ev
  | fwOpen : Option String → Ev
  | triggerCall : Ev
  | triggerRaised : Ev
  | logException : Ev
  | acqDoneSet : Ev
  | fwClose : Option String → Ev
  | rollOffCall : Ev
  | doAcquireSet : Ev
  | rearmHook : Ev
  deriving DecidableEq

/-- Whether the device-specific `_trigger()` call returns normally or raises. -/
inductive TrigOutcome
  | ok
  | exn
  deriving DecidableEq

/--
One iteration of `CameraBase.acquisition_loop` (camera.py lines 296-348),
entered when the `do_acquire` event fired.  Returns the ordered action trace,
whether the loop continues to the next iteration (`false` = `break`), and the
resulting state.  Line by line: capture `filename := self.filename`, clear
`do_acquire`; if not rolling, ask the file writer to open `filename`; call
`self._trigger()`.  If `_trigger` raises: log the exception, set
`acquire_done`, then close `filename` (not rolling) or call `roll_off`
(rolling), and break.  If it returns: set `acquire_done` immediately; when
rolling, break if `stop_rolling_flag` else re-set `do_acquire` and continue;
when not rolling, close `filename`, then break if `auto_armed` else run
`_rearm` and continue.
-/
def acqIteration (s : CamState) (tr : TrigOutcome) : List Ev × Bool × CamState :=
  let filename := s.filename
  let s0 := { s with doAcquire := false }
  let openEvs := if !s0.rolling then [Ev.fwOpen filename] else []
  match tr with
  | .exn =>
    let s1 := { s0 with acquireDone := true }
    if !s1.rolling then
      (openEvs ++ [.triggerCall, .triggerRaised, .logException, .acqDoneSet,
        .fwClose filename], false, s1)
    else
      (openEvs ++ [.triggerCall, .triggerRaised, .logException, .acqDoneSet,
        .rollOffCall], false, rollOff s1)
  | .ok =>
    let s1 := { s0 with acquireDone := true }
    if s1.rolling then
      if s1.stopRollingFlag then
        (openEvs ++ [.triggerCall, .acqDoneSet], false, s1)
      else
        (openEvs ++ [.triggerCall, .acqDoneSet, .doAcquireSet], true,
          { s1 with doAcquire := true })
    else
      let evs := openEvs ++ [.triggerCall, .acqDoneSet, .fwClose filename]
      if s1.autoArmed then (evs, false, s1)
      else (evs ++ [.rearmHook], true, s1)

/-- Boolean recognizers for single actions, used to count occurrences. -/
def isAcqDoneSet : Ev → Bool
  | .acqDoneSet => true
  | _ => false

/-- Recognizer for the `_trigger` call action. -/
def isTriggerCall : Ev → Bool
  | .triggerCall => true
  | _ => false

/-!
## Frame enqueueing and metadata bundles

`CameraBase.enqueue_frame` (camera.py lines 445-465).  Python dicts are
modelled as association lists whose *first* matching entry is the binding
(`dictGet`); `dict.update` keeps old non-overridden entries and lets the
update win on collisions; key assignment is `dictUpdate` with a single pair.
-/

deriving instance DecidableEq for Except

/-- Python's `str.lower()` (character-wise, as for the ASCII names and mode
strings used here). -/
def pyLower (s : String) : String :=
  ⟨s.data.map Char.toLower⟩

/-- Association-list model of a Python dict. -/
abbrev Dict (V : Type) := List (String × V)

/-- Lookup: the first entry with the given key. -/
def dictGet {V : Type} (d : Dict V) (k : String) : Option V :=
  (d.find? (fun kv => kv.1 == k)).map (fun kv => kv.2)

/-- `d.update(e)`: entries of `e` override entries of `d` with the same key;
all other entries of `d` are kept. -/
def dictUpdate {V : Type} (d e : Dict V) : Dict V :=
  d.filter (fun kv => !(e.any (fun kv2 => kv2.1 == kv.1))) ++ e

/-- `d[k] = v`. -/
def dictSet {V : Type} (d : Dict V) (k : String) (v : V) : Dict V :=
  dictUpdate d [(k, v)]

/--
The part of a camera's state touched by `enqueue_frame`: the device name
(`self.name`), the queue-empty event, the two metadata bundles
(`self.metadata`: per-device sub-dicts aggregated by the metadata loop;
`self.localmeta`: this device's own entries), and the frame queue (FIFO,
new items appended at the tail).  `F` is the opaque frame payload type, `V`
the opaque metadata value type.
-/
structure QState (F V : Type) where
  name : String
  frameQueueEmptyFlag : Bool
  metadata : Dict (Dict V)
  localmeta : Dict V
  frameQueue : List (F × Dict (Dict V))

/--
`CameraBase.enqueue_frame(frame, meta)` (camera.py lines 445-465), the body
under `self.enqueue_lock` (the lock serializes this block against the
metadata loop; the model is the atomic block itself): clear the queue-empty
event; capture both bundles and reset the attributes to fresh empty dicts;
`localmeta.update(meta)`; `metadata[self.name.lower()] = localmeta`; push
`(frame, metadata)` onto the queue.
-/
def enqueueFrame {F V : Type} (s : QState F V) (frame : F) (meta : Dict V) :
    QState F V :=
  { name := s.name
    frameQueueEmptyFlag := false
    metadata := []
    localmeta := []
    frameQueue := s.frameQueue ++
      [(frame, dictSet s.metadata (pyLower s.name) (dictUpdate s.localmeta meta))] }

/-!
## Filename construction

`CameraBase._build_filename` (camera.py lines 467-487).  The Python pieces
`str.format` (with one positional argument, as used with templates such as
`"scan_\x7b0\x7d"`), decimal rendering of the counter, and `os.path.join`
are embedded below.
-/

/-- Decimal rendering, fuelled so that the kernel can evaluate it; the fuel
is consumed once per digit, so any fuel above the digit count is enough. -/
def dcharsAux : Nat → Nat → List Char
  | 0, _ => []
  | f + 1, n =>
    if n < 10 then [Nat.digitChar n]
    else dcharsAux f (n / 10) ++ [Nat.digitChar (n % 10)]

/-- Decimal digit characters of `n` (the rendering used by Python's
`"\x7b0\x7d".format(n)` and `"\x7b0:06d\x7d".format(n)` before padding). -/
def dchars (n : Nat) : List Char :=
  dcharsAux (n + 1) n

/-- Zero-pad a digit string on the left to width 6 (the `06d` format spec
used by the scan prefix template). -/
def padSix (l : List Char) : List Char :=
  List.replicate (6 - l.length) '0' ++ l

/-- Decode a (possibly zero-padded) decimal digit string; used to show that
distinct counters yield distinct rendered prefixes. -/
def numval (l : List Char) : Nat :=
  l.foldl (fun a c => 10 * a + (c.toNat - 48)) 0

/--
`template.format(n)` for the placeholder forms `\x7b0\x7d` and `\x7b\x7d`,
over the character list: each placeholder occurrence is replaced by `cnt`
(the rendered counter); all other characters pass through.  (Templates with
unbalanced braces raise `ValueError` in Python and are outside this model —
a brace-free template is the faithful reading of "no substitution
placeholder"; note the source's `except NameError` never fires, since
`str.format` does not raise `NameError`.)
-/
def substCore (cnt : List Char) : List Char → List Char
  | [] => []
  | '\x7b' :: '\x7d' :: rest => cnt ++ substCore cnt rest
  | '\x7b' :: '0' :: '\x7d' :: rest => cnt ++ substCore cnt rest
  | c :: rest => c :: substCore cnt rest

/-- `pfx.format(n)` as used in `_build_filename` (camera.py line 474). -/
def pyFormat (pfx : String) (n : Nat) : String :=
  ⟨substCore (dchars n) pfx.data⟩

/-- Whether a path string starts with the separator, i.e. is absolute. -/
def headIsSlash (b : String) : Bool :=
  match b.data with
  | [] => false
  | c :: _ => c == '/'

/-- Whether a path string already ends with the separator. -/
def lastIsSlash (a : String) : Bool :=
  match a.data.getLast? with
  | some c => c == '/'
  | none => false

/-- `os.path.join(a, b)` for the cases arising here: an absolute `b` wins; an
empty `a` contributes nothing; otherwise the parts are joined with `/` unless
`a` already ends with one. -/
def joinPath (a b : String) : String :=
  if a = "" then b
  else if headIsSlash b then b
  else if lastIsSlash a then a ++ b
  else a ++ "/" ++ b

/--
`CameraBase._build_filename(prefix, path)` (camera.py lines 467-487):
substitute the counter into the prefix template, join
`BASE_PATH`/`path`/`prefix`, then append the extension selected by the
configured file format — `.h5` for `hdf5`, `.tif` for `tiff` — raising
`RuntimeError` for any other configured format.
-/
def buildFilename (s : CamState) (pfx path : String) : Except String String :=
  let p := pyFormat pfx s.counter
  let fullFilePrefix := joinPath (joinPath s.basePath path) p
  if s.fileFormat = "hdf5" then .ok (fullFilePrefix ++ ".h5")
  else if s.fileFormat = "tiff" then .ok (fullFilePrefix ++ ".tif")
  else .error ("Unknown file format: " ++ s.fileFormat ++ ".")

/-!
## Validated configuration setters
-/

/--
The `save_mode` property setter (camera.py lines 500-506): lower-case the
argument, raise `RuntimeError` for anything outside
`['ram', 'append', 'single']` — the raise happens *before* the assignment to
`self.config['save_mode']`, so a rejected value leaves the configuration
untouched — then store the lower-cased mode (and forward it to the file
writer process, an external call not modelled).
-/
def saveModeSet (s : CamState) (mode : String) : Except String CamState :=
  let m := pyLower mode
  if !(m = "ram" ∨ m = "append" ∨ m = "single") then
    .error ("Unknown saving mode " ++ m)
  else .ok { s with saveMode := m }

/--
The `file_format` property setter (camera.py lines 792-799): lower-cased
values in `['h5', 'hdf', 'hdf5']` store the canonical `'hdf5'`; values in
`['tif', 'tiff']` store `'tiff'`; anything else raises `RuntimeError` before
any assignment.
-/
def fileFormatSet (s : CamState) (value : String) : Except String CamState :=
  if pyLower value = "h5" ∨ pyLower value = "hdf" ∨ pyLower value = "hdf5" then
    .ok { s with fileFormat := "hdf5" }
  else if pyLower value = "tif" ∨ pyLower value = "tiff" then
    .ok { s with fileFormat := "tiff" }
  else .error ("Unknown file format: " ++ value)

/-!
## Manager (scan context provider)

`ManagerBase` of `lclib/manager.py`: scan bookkeeping state and the
operations the claims touch.  `_base_file_name` is always
`scan_name + "_\x7b0:06d\x7d"` (set in `start_scan`, line 175), so prefix
formatting is embedded as `scanName ++ "_" ++ zero-padded counter`.
-/

/--
State of a `ManagerBase` instance: `_running`, `_scan_name`, the per-scan
`counter`, and the persisted configuration entries (`data_path`,
`investigation`, `experiment`, `last_scan_info`).  `lastScanInfo` is kept
opaque as an association list of strings.
-/
structure MgrState where
  running : Bool := false
  scanName : String := ""
  counter : Nat := 0
  investigation : Option String := none
  experiment : Option String := none
  dataPath : Option String := none
  lastScanInfo : List (String × String) := []
  deriving DecidableEq

/-- `self._base_file_name.format(self.counter)` with `_base_file_name =
scan_name + "_\x7b0:06d\x7d"`: the scan name, an underscore, and the counter
zero-padded to six digits. -/
def scanFilePrefix (scanName : String) (c : Nat) : String :=
  scanName ++ "_" ++ ⟨padSix (dchars c)⟩

/--
`ManagerBase.next_prefix` (lclib/manager.py lines 250-259): raises
`RuntimeError` when no scan is running; otherwise returns the formatted
prefix for the *current* counter and increments the counter.
-/
def nextPrefix (m : MgrState) : Except String (String × MgrState) :=
  if !m.running then .error "No scan currently running"
  else .ok (scanFilePrefix m.scanName m.counter, { m with counter := m.counter + 1 })

/-- `ManagerBase._VALID_CHAR` (lclib/manager.py line 93). -/
def VALID_CHAR : String :=
  "abcdefghijklmnopqrstuvwxyzABCDEFGHIJKLMNOPQRSTUVWXYZ0123456789_-:"

/-- `ManagerBase._valid_name` (lclib/manager.py lines 337-341). -/
def validName (s : String) : Bool :=
  s.data.all (fun c => VALID_CHAR.data.contains c)

/--
The `investigation` property setter (lclib/manager.py lines 363-372): raises
for `None`, raises while a scan is running, raises for a name with characters
outside `_VALID_CHAR`; otherwise stores the new investigation name *and
resets the `experiment` configuration entry to `None`* — and touches nothing
else.
-/
def investigationSet (m : MgrState) (v : Option String) : Except String MgrState :=
  match v with
  | none => .error "Investigation should not be set to None"
  | some v =>
    if m.running then .error "Investigation cannot be modified while a scan is running."
    else if !validName v then .error ("Invalid investigation name: " ++ v)
    else .ok { m with investigation := some v, experiment := none }

/--
The `experiment` property setter (lclib/manager.py lines 382-393): raises for
`None`, raises while a scan is running, raises when no investigation is set,
raises for an invalid name; otherwise stores the experiment name (the
`_check_path` filesystem side effect is external).
-/
def experimentSet (m : MgrState) (v : Option String) : Except String MgrState :=
  match v with
  | none => .error "Experiment should not be set to None"
  | some v =>
    if m.running then .error "Experiment cannot be modified while a scan is running."
    else if m.investigation = none then .error "Investigation is not set."
    else if !validName v then .error ("Invalid experiment name: " ++ v)
    else .ok { m with experiment := some v }

/-!
# Helper lemmas
-/

/-- A template without braces passes through `substCore` unchanged. -/
theorem substCore_no_brace (cnt : List Char) (l : List Char)
    (h : '\x7b' ∉ l) : substCore cnt l = l := by
  induction l using substCore.induct with
  | cnt => exact cnt
  | case1 => rfl
  | case2 rest ih => simp at h
  | case3 rest ih => simp at h
  | case4 c rest h1 h2 ih =>
    rw [substCore.eq_4 cnt c rest h1 h2]
    simp only [List.mem_cons, not_or] at h
    rw [ih h.2]

/-- Code of a decimal digit character. -/
theorem digitChar_toNat (d : Nat) (h : d < 10) : (Nat.digitChar d).toNat = 48 + d := by
  interval_cases d <;> rfl

/-- Appending a digit multiplies the decoded value by ten and adds the digit. -/
theorem numval_append_digit (l : List Char) (c : Char) :
    numval (l ++ [c]) = 10 * numval l + (c.toNat - 48) := by
  simp [numval, List.foldl_append]

/-- Leading zeros do not change the decoded value. -/
theorem numval_replicate_zero (k : Nat) (l : List Char) :
    numval (List.replicate k '0' ++ l) = numval l := by
  induction k with
  | zero => simp
  | succ n ih => simpa [List.replicate_succ, numval] using ih

/-- With enough fuel, decoding inverts the fuelled decimal rendering. -/
theorem numval_dcharsAux (f : Nat) : ∀ n, n < f → numval (dcharsAux f n) = n := by
  induction f with
  | zero => omega
  | succ f ih =>
    intro n hn
    by_cases h : n < 10
    · simp [dcharsAux, h, numval, digitChar_toNat n h]
    · have hd : n / 10 < n := Nat.div_lt_self (by omega) (by omega)
      rw [dcharsAux, if_neg h, numval_append_digit, ih (n / 10) (by omega),
        digitChar_toNat (n % 10) (by omega)]
      omega

/-- Decoding inverts the zero-padded decimal rendering. -/
theorem numval_padSix_dchars (n : Nat) : numval (padSix (dchars n)) = n := by
  rw [padSix, numval_replicate_zero, dchars, numval_dcharsAux (n + 1) n (by omega)]

/-- The zero-padded decimal rendering is injective. -/
theorem padSix_dchars_inj {a b : Nat} (h : padSix (dchars a) = padSix (dchars b)) :
    a = b := by
  have ha := numval_padSix_dchars a
  rw [h, numval_padSix_dchars] at ha
  omega

/-- Two scan prefixes with the same scan name and different counters differ. -/
theorem scanFilePrefix_inj {base : String} {a b : Nat}
    (h : scanFilePrefix base a = scanFilePrefix base b) : a = b := by
  have hd := congrArg String.data h
  simp only [scanFilePrefix, String.data_append, List.append_assoc] at hd
  exact padSix_dchars_inj (List.cons_injective (List.append_cancel_left hd))

/-!
# Claim theorems
-/

/--
**C7.** Filename construction substitutes the counter into the prefix
template (leaving a placeholder-free — i.e. brace-free — prefix unchanged),
joins base path, directory path and prefix, and appends `.h5` when
`file_format` is `hdf5` and `.tif` when it is `tiff`; any other configured
format raises an error.
-/
theorem c7_build_filename (s : CamState) (pfx path : String) :
    ('\x7b' ∉ pfx.data → pyFormat pfx s.counter = pfx)
    ∧ (s.fileFormat = "hdf5" →
        buildFilename s pfx path =
          .ok (joinPath (joinPath s.basePath path) (pyFormat pfx s.counter) ++ ".h5"))
    ∧ (s.fileFormat = "tiff" →
        buildFilename s pfx path =
          .ok (joinPath (joinPath s.basePath path) (pyFormat pfx s.counter) ++ ".tif"))
    ∧ (s.fileFormat ≠ "hdf5" → s.fileFormat ≠ "tiff" →
        buildFilename s pfx path =
          .error ("Unknown file format: " ++ s.fileFormat ++ ".")) := by
  refine ⟨?_, ?_, ?_, ?_⟩
  · intro h
    show (⟨substCore (dchars s.counter) pfx.data⟩ : String) = pfx
    rw [substCore_no_brace _ _ h]
  · intro h
    simp [buildFilename, h]
  · intro h
    simp [buildFilename, h]
  · intro h1 h2
    simp [buildFilename, h1, h2]

/--
Witness for C7 at the spec's concrete inputs: template `scan_\x7b0\x7d`,
counter 7, base `/data`, directory `exp`; format `hdf5` gives
`/data/exp/scan_7.h5`, format `tiff` gives the `.tif` extension, format
`raw` raises; a brace-free template is untouched.
-/
theorem c7_build_filename_witness :
    buildFilename { counter := 7, fileFormat := "hdf5", basePath := "/data" }
        "scan_\x7b0\x7d" "exp" = .ok "/data/exp/scan_7.h5"
    ∧ buildFilename { counter := 7, fileFormat := "tiff", basePath := "/data" }
        "scan_\x7b0\x7d" "exp" = .ok "/data/exp/scan_7.tif"
    ∧ buildFilename { counter := 7, fileFormat := "raw", basePath := "/data" }
        "scan_\x7b0\x7d" "exp" = .error "Unknown file format: raw."
    ∧ pyFormat "scan" 7 = "scan" := by
  refine ⟨?_, ?_, ?_, ?_⟩
  · exact ((c7_build_filename { counter := 7, fileFormat := "hdf5", basePath := "/data" }
      "scan_\x7b0\x7d" "exp").2.1 rfl).trans (by decide)
  · exact ((c7_build_filename { counter := 7, fileFormat := "tiff", basePath := "/data" }
      "scan_\x7b0\x7d" "exp").2.2.1 rfl).trans (by decide)
  · exact ((c7_build_filename { counter := 7, fileFormat := "raw", basePath := "/data" }
      "scan_\x7b0\x7d" "exp").2.2.2 (by decide) (by decide)).trans (by decide)
  · exact (c7_build_filename { counter := 7, fileFormat := "hdf5", basePath := "/data" }
      "scan" "exp").1 (by decide)

/--
**C8.** While a scan is running, each `next_prefix` call returns the scan's
base file name formatted with the current counter and then increments the
counter; two sequential calls (as made by two sequential `snap()` calls in a
scan) obtain distinct, strictly increasing numbered prefixes; with no scan
running, `next_prefix` raises.
-/
theorem c8_next_prefix_spec (m : MgrState) :
    (m.running = true →
      ∃ p1 m1 p2 m2,
        nextPrefix m = .ok (p1, m1) ∧ nextPrefix m1 = .ok (p2, m2)
          ∧ p1 = scanFilePrefix m.scanName m.counter
          ∧ p2 = scanFilePrefix m.scanName (m.counter + 1)
          ∧ m1.counter = m.counter + 1 ∧ m2.counter = m.counter + 2
          ∧ m1.counter < m2.counter ∧ p1 ≠ p2)
    ∧ (m.running = false → nextPrefix m = .error "No scan currently running") := by
  constructor
  · intro h
    refine ⟨scanFilePrefix m.scanName m.counter, { m with counter := m.counter + 1 },
      scanFilePrefix m.scanName (m.counter + 1), { m with counter := m.counter + 2 },
      ?_, ?_, rfl, rfl, rfl, rfl, Nat.lt_succ_self _, ?_⟩
    · simp [nextPrefix, h]
    · simp [nextPrefix, h]
    · intro heq
      have := scanFilePrefix_inj heq
      omega
  · intro h
    simp [nextPrefix, h]

/-- Witness for C8: a running scan at counter 0 yields the two prefixes
`..._000000` and `..._000001`; an idle manager raises. -/
theorem c8_next_prefix_spec_witness :
    (∃ p1 m1 p2 m2,
      nextPrefix { running := true, scanName := "000012_26-10-12", counter := 0 } =
          .ok (p1, m1)
        ∧ nextPrefix m1 = .ok (p2, m2)
        ∧ p1 = scanFilePrefix "000012_26-10-12" 0
        ∧ p2 = scanFilePrefix "000012_26-10-12" 1
        ∧ m1.counter = 1 ∧ m2.counter = 2 ∧ m1.counter < m2.counter ∧ p1 ≠ p2)
    ∧ nextPrefix { running := false } = .error "No scan currently running" :=
  ⟨(c8_next_prefix_spec { running := true, scanName := "000012_26-10-12", counter := 0 }).1 rfl,
    (c8_next_prefix_spec { running := false }).2 rfl⟩

/-- Entries hidden by a key-overriding filter are invisible to lookup. -/
theorem find?_filter_ne_key {V : Type} (k : String) (d : Dict V) :
    (d.filter (fun kv => !(k == kv.1))).find? (fun kv => kv.1 == k) = none := by
  induction d with
  | nil => rfl
  | cons a t ih =>
    by_cases h : k = a.1
    · rw [List.filter_cons, if_neg (by simpa using h)]
      exact ih
    · rw [List.filter_cons, if_pos (by simpa using h)]
      rw [List.find?_cons_of_neg _ (by simpa using fun hc => h hc.symm)]
      exact ih

/-- Looking up the key just assigned by `dictSet` returns the new value. -/
theorem dictGet_dictSet {V : Type} (d : Dict V) (k : String) (v : V) :
    dictGet (dictSet d k v) k = some v := by
  have hnone := find?_filter_ne_key k d
  simp only [dictGet, dictSet, dictUpdate]
  rw [List.find?_append]
  simp [hnone]

/--
**C9.** Assigning `save_mode` any value outside `\x7bram, append, single\x7d`
(after lower-casing) raises and — the raise preceding the store in the
source — leaves the stored configuration unchanged; a valid value is stored
lower-cased, so `save_mode` always remains in the valid set, and any
successful `file_format` assignment likewise leaves `file_format` in
`\x7bhdf5, tiff\x7d`.
-/
theorem c9_save_mode_validation (s : CamState) (mode value : String) :
    (¬(pyLower mode = "ram" ∨ pyLower mode = "append" ∨ pyLower mode = "single") →
      saveModeSet s mode = .error ("Unknown saving mode " ++ pyLower mode))
    ∧ ((pyLower mode = "ram" ∨ pyLower mode = "append" ∨ pyLower mode = "single") →
      saveModeSet s mode = .ok { s with saveMode := pyLower mode })
    ∧ (∀ s2, saveModeSet s mode = .ok s2 →
        (s2.saveMode = "ram" ∨ s2.saveMode = "append" ∨ s2.saveMode = "single")
        ∧ s2.saveMode = pyLower mode
        ∧ s2.fileFormat = s.fileFormat)
    ∧ (∀ s2, fileFormatSet s value = .ok s2 →
        (s2.fileFormat = "hdf5" ∨ s2.fileFormat = "tiff")
        ∧ s2.saveMode = s.saveMode) := by
  refine ⟨?_, ?_, ?_, ?_⟩
  · intro h
    simp [saveModeSet, h]
  · intro h
    simp [saveModeSet, h]
  · intro s2 h
    by_cases hv : pyLower mode = "ram" ∨ pyLower mode = "append" ∨ pyLower mode = "single"
    · simp [saveModeSet, hv] at h
      subst h
      simpa using hv
    · simp [saveModeSet, hv] at h
  · intro s2 h
    by_cases h1 : pyLower value = "h5" ∨ pyLower value = "hdf" ∨ pyLower value = "hdf5"
    · simp [fileFormatSet, h1] at h
      subst h
      simp
    · by_cases h2 : pyLower value = "tif" ∨ pyLower value = "tiff"
      · simp [fileFormatSet, h1, h2] at h
        subst h
        simp
      · simp [fileFormatSet, h1, h2] at h

/-- Witness for C9: `save_mode = "bogus"` raises with the configuration
untouched; `save_mode = "RAM"` stores `ram`; `file_format = "TIF"` stores
`tiff`. -/
theorem c9_save_mode_validation_witness :
    saveModeSet { } "bogus" = .error "Unknown saving mode bogus"
    ∧ saveModeSet { } "RAM" = .ok { saveMode := "ram" }
    ∧ (∀ s2, fileFormatSet { } "TIF" = .ok s2 →
        (s2.fileFormat = "hdf5" ∨ s2.fileFormat = "tiff") ∧ s2.saveMode = "append") := by
  refine ⟨?_, ?_, ?_⟩
  · exact ((c9_save_mode_validation { } "bogus" "").1 (by decide)).trans (by decide)
  · exact ((c9_save_mode_validation { } "RAM" "").2.1 (by decide)).trans (by decide)
  · exact (c9_save_mode_validation { } "" "TIF").2.2.2

/--
**C10.** Assigning the `investigation` property, when the value is valid and
no scan is running, stores the new investigation name and resets the
`experiment` configuration entry to `None`; every other state component is
unchanged.
-/
theorem c10_investigation_resets_experiment (m : MgrState) (v : String)
    (hrun : m.running = false) (hval : validName v = true) :
    ∃ m2, investigationSet m (some v) = .ok m2
      ∧ m2.investigation = some v ∧ m2.experiment = none
      ∧ m2.dataPath = m.dataPath ∧ m2.lastScanInfo = m.lastScanInfo
      ∧ m2.running = m.running ∧ m2.counter = m.counter
      ∧ m2.scanName = m.scanName := by
  refine ⟨{ m with investigation := some v, experiment := none },
    ?_, rfl, rfl, rfl, rfl, rfl, rfl, rfl⟩
  simp [investigationSet, hrun, hval]

/-- Witness for C10: setting investigation `newinv` on an idle manager with
experiment `expA` stores the investigation and clears the experiment. -/
theorem c10_investigation_resets_experiment_witness :
    ∃ m2, investigationSet
        { running := false, investigation := some "oldinv", experiment := some "expA" }
        (some "newinv") = .ok m2
      ∧ m2.investigation = some "newinv" ∧ m2.experiment = none
      ∧ m2.dataPath = none ∧ m2.lastScanInfo = []
      ∧ m2.running = false ∧ m2.counter = 0 ∧ m2.scanName = "" :=
  c10_investigation_resets_experiment
    { running := false, investigation := some "oldinv", experiment := some "expA" }
    "newinv" rfl (by decide)

/--
**C4.** Every `enqueue_frame` call (the body running under the enqueue
mutex) clears the queue-empty signal, resets both metadata bundles to empty
maps, merges the device-local metadata updated with the readout `meta` into
the per-frame metadata under this device's (lower-cased) name key, and pushes
exactly one `(frame, metadata)` pair onto the queue — so the captured bundles
are attached to exactly this one frame and never reused.
-/
theorem c4_enqueue_frame_spec {F V : Type} (s : QState F V) (frame : F) (meta : Dict V) :
    (enqueueFrame s frame meta).frameQueueEmptyFlag = false
    ∧ (enqueueFrame s frame meta).metadata = []
    ∧ (enqueueFrame s frame meta).localmeta = []
    ∧ (enqueueFrame s frame meta).frameQueue =
        s.frameQueue ++
          [(frame, dictSet s.metadata (pyLower s.name) (dictUpdate s.localmeta meta))]
    ∧ (enqueueFrame s frame meta).frameQueue.length = s.frameQueue.length + 1
    ∧ dictGet (dictSet s.metadata (pyLower s.name) (dictUpdate s.localmeta meta))
        (pyLower s.name) = some (dictUpdate s.localmeta meta) :=
  ⟨rfl, rfl, rfl, rfl, by simp [enqueueFrame], dictGet_dictSet _ _ _⟩

/-- `roll_off` never touches the `acquire_done` event. -/
theorem rollOff_acquireDone (s : CamState) : (rollOff s).acquireDone = s.acquireDone := by
  rcases hr : s.rolling
  · simp [rollOff, hr]
  · simp only [rollOff, disarmPlain, hr, Bool.not_true, Bool.false_eq_true, if_false]
    repeat' split
    all_goals rfl

/--
**C1.** In every acquisition-loop iteration the `acquire_done` event is set
exactly once, strictly after the device `_trigger` call (whether it returned
or raised), and — in the non-rolling path — strictly before the file-writer
close call for the filename captured at the start of the iteration; a caller
blocked in `snap` is therefore unblocked before file finalization.
-/
theorem c1_acquire_done_ordering (s : CamState) (tr : TrigOutcome) :
    ((acqIteration s tr).1.countP isAcqDoneSet = 1)
    ∧ (∃ l1 l2 l3,
        (acqIteration s tr).1 = l1 ++ Ev.triggerCall :: l2 ++ Ev.acqDoneSet :: l3)
    ∧ (s.rolling = false →
        ∃ l1 l2 l3,
          (acqIteration s tr).1 =
            l1 ++ Ev.acqDoneSet :: l2 ++ Ev.fwClose s.filename :: l3) := by
  rcases hr : s.rolling
  · cases tr
    · rcases ha : s.autoArmed
      · refine ⟨?_,
          ⟨[Ev.fwOpen s.filename], [], [Ev.fwClose s.filename, Ev.rearmHook], ?_⟩,
          fun _ => ⟨[Ev.fwOpen s.filename, Ev.triggerCall], [], [Ev.rearmHook], ?_⟩⟩ <;>
          simp [acqIteration, hr, ha, isAcqDoneSet]
      · refine ⟨?_,
          ⟨[Ev.fwOpen s.filename], [], [Ev.fwClose s.filename], ?_⟩,
          fun _ => ⟨[Ev.fwOpen s.filename, Ev.triggerCall], [], [], ?_⟩⟩ <;>
          simp [acqIteration, hr, ha, isAcqDoneSet]
    · refine ⟨?_,
        ⟨[Ev.fwOpen s.filename], [Ev.triggerRaised, Ev.logException],
          [Ev.fwClose s.filename], ?_⟩,
        fun _ => ⟨[Ev.fwOpen s.filename, Ev.triggerCall, Ev.triggerRaised,
          Ev.logException], [], [], ?_⟩⟩ <;>
        simp [acqIteration, hr, isAcqDoneSet]
  · cases tr
    · rcases hstop : s.stopRollingFlag
      · refine ⟨?_, ⟨[], [], [Ev.doAcquireSet], ?_⟩, fun hc => by simp [hr] at hc⟩ <;>
          simp [acqIteration, hr, hstop, isAcqDoneSet]
      · refine ⟨?_, ⟨[], [], [], ?_⟩, fun hc => by simp [hr] at hc⟩ <;>
          simp [acqIteration, hr, hstop, isAcqDoneSet]
    · refine ⟨?_, ⟨[], [Ev.triggerRaised, Ev.logException], [Ev.rollOffCall], ?_⟩,
        fun hc => by simp [hr] at hc⟩ <;>
        simp [acqIteration, hr, isAcqDoneSet]

/-- Witness for C1 at a concrete non-rolling state and a successful trigger:
the ordering conclusions hold with the hypothesis discharged. -/
theorem c1_acquire_done_ordering_witness :
    ((acqIteration { rolling := false, filename := some "f.h5" } TrigOutcome.ok).1.countP
        isAcqDoneSet = 1)
    ∧ (∃ l1 l2 l3,
        (acqIteration { rolling := false, filename := some "f.h5" } TrigOutcome.ok).1 =
          l1 ++ Ev.triggerCall :: l2 ++ Ev.acqDoneSet :: l3)
    ∧ (∃ l1 l2 l3,
        (acqIteration { rolling := false, filename := some "f.h5" } TrigOutcome.ok).1 =
          l1 ++ Ev.acqDoneSet :: l2 ++ Ev.fwClose (some "f.h5") :: l3) :=
  ⟨(c1_acquire_done_ordering { rolling := false, filename := some "f.h5" } .ok).1,
    (c1_acquire_done_ordering { rolling := false, filename := some "f.h5" } .ok).2.1,
    (c1_acquire_done_ordering { rolling := false, filename := some "f.h5" } .ok).2.2 rfl⟩

/--
**C2.** When the device `_trigger` raises: the exception is caught and
logged, `acquire_done` is still set (exactly once, and it is set in the
resulting state), the in-flight file is closed when not rolling and
`roll_off` is called when rolling, and the iteration breaks out of the loop
having called the trigger exactly once (no retry).
-/
theorem c2_trigger_failure_handling (s : CamState) :
    ((acqIteration s .exn).2.1 = false)
    ∧ (Ev.logException ∈ (acqIteration s .exn).1)
    ∧ ((acqIteration s .exn).1.countP isAcqDoneSet = 1)
    ∧ ((acqIteration s .exn).1.countP isTriggerCall = 1)
    ∧ (s.rolling = false → Ev.fwClose s.filename ∈ (acqIteration s .exn).1)
    ∧ (s.rolling = true → Ev.rollOffCall ∈ (acqIteration s .exn).1)
    ∧ ((acqIteration s .exn).2.2.acquireDone = true) := by
  rcases hr : s.rolling <;>
    simp [acqIteration, hr, isAcqDoneSet, isTriggerCall, rollOff_acquireDone]

/-- Witness for C2 at concrete rolling and non-rolling states. -/
theorem c2_trigger_failure_handling_witness :
    (Ev.fwClose (some "g.h5") ∈
      (acqIteration { rolling := false, filename := some "g.h5" } .exn).1)
    ∧ (Ev.rollOffCall ∈ (acqIteration { rolling := true } .exn).1)
    ∧ ((acqIteration { rolling := true } .exn).2.1 = false) :=
  ⟨(c2_trigger_failure_handling { rolling := false, filename := some "g.h5" }).2.2.2.2.1 rfl,
    (c2_trigger_failure_handling { rolling := true }).2.2.2.2.2.1 rfl,
    (c2_trigger_failure_handling { rolling := true }).1⟩

/-- Whether a modelled call raised (`Except.error`). -/
def exceptRaises {E A : Type} : Except E A → Bool
  | .error _ => true
  | .ok _ => false

/--
Counterexample for C3: `snap` called while rolling does *not* raise — it
returns normally (logging a warning), as `snapCheck` of a rolling state
evaluates to a successful `refusedRolling` result, not an error.
-/
theorem c3_snap_rolling_counterexample :
    snapCheck { rolling := true } true = .ok SnapCheck.refusedRolling
      ∧ exceptRaises (snapCheck { rolling := true } true) = false := by
  exact ⟨rfl, rfl⟩

/--
**C3 (amended).** `arm()` while rolling raises, and assigning the
`experiment` or `investigation` property while a scan is running raises, in
every such state; `snap()` while rolling, however, does not raise — it
returns silently with only a logged warning.
-/
theorem c3_invariant_violations (s : CamState) (m : MgrState)
    (managerConnected : Bool) (expTime : Option ℚ) (expNum : Option Nat)
    (v : Option String) (hroll : s.rolling = true) (hrun : m.running = true) :
    armCam s expTime expNum = .error "Camera is rolling. Call roll_off first."
    ∧ exceptRaises (investigationSet m v) = true
    ∧ exceptRaises (experimentSet m v) = true
    ∧ snapCheck s managerConnected = .ok SnapCheck.refusedRolling := by
  refine ⟨by simp [armCam, hroll], ?_, ?_, by simp [snapCheck, hroll]⟩
  · rcases v with _ | v <;> simp [investigationSet, exceptRaises, hrun]
  · rcases v with _ | v <;> simp [experimentSet, exceptRaises, hrun]

/-- Witness for C3 (amended) at concrete rolling/running states. -/
theorem c3_invariant_violations_witness :
    armCam { rolling := true } none none =
        .error "Camera is rolling. Call roll_off first."
    ∧ exceptRaises (investigationSet { running := true } (some "inv")) = true
    ∧ exceptRaises (experimentSet { running := true } (some "exp1")) = true
    ∧ snapCheck { rolling := true } true = .ok SnapCheck.refusedRolling :=
  c3_invariant_violations { rolling := true } { running := true } true none none
    (some "inv") rfl rfl |>.imp id
    (fun h => ⟨h.1, (c3_invariant_violations { rolling := true } { running := true }
      true none none (some "exp1") rfl rfl).2.2⟩)

/-- Successful `arm` in normal form: from a non-rolling, non-armed state,
`arm` applies the overrides, clears the three flags, refreshes the scan path
and sets `armed`. -/
theorem armCam_ok (s : CamState) (et : Option ℚ) (en : Option Nat)
    (hroll : s.rolling = false) (harm : s.armed = false) :
    armCam s et en = .ok { s with
      exposureTime := et.getD s.exposureTime,
      exposureNumber := en.getD s.exposureNumber,
      endAcquisition := false, acquireDone := false, doAcquire := false,
      scanPath := s.mgrScanPath, armed := true } := by
  rcases et with _ | t <;> rcases en with _ | n <;>
    simp [armCam, hroll, harm, Option.getD] <;> split_ifs <;> simp_all

attribute [local semireducible] Rat.mul Rat.add Rat.sub Rat.inv in
/--
Counterexample for C5: from the default idle state, `arm(exp_time=2)`
followed immediately by `disarm()` does *not* restore the pre-arm state —
the exposure-time override persists and the end-of-acquisition flag stays
set.
-/
theorem c5_arm_disarm_counterexample :
    Except.map disarmCam (armCam { } (some 2) none) ≠ .ok ({ } : CamState) := by
  decide

/--
**C5 (amended).** For all exposure-time/number arguments, `arm` followed
immediately by `disarm` returns the camera to its pre-arm state *except*
that: exposure overrides persist (no rollback), the end-of-acquisition flag
is left set, the `acquire_done`/`do_acquire` events are left cleared, and the
recorded scan path is refreshed from the manager; and a second `disarm()` is
a no-op (state unchanged, no error).
-/
theorem c5_arm_disarm_roundtrip (s : CamState) (et : Option ℚ) (en : Option Nat)
    (hroll : s.rolling = false) (harm : s.armed = false) :
    ∃ s1, armCam s et en = .ok s1
      ∧ disarmCam s1 = { s with
          exposureTime := et.getD s.exposureTime,
          exposureNumber := en.getD s.exposureNumber,
          endAcquisition := true, acquireDone := false, doAcquire := false,
          scanPath := s.mgrScanPath, armed := false }
      ∧ disarmCam (disarmCam s1) = disarmCam s1 := by
  refine ⟨_, armCam_ok s et en hroll harm, ?_, ?_⟩
  · simp [disarmCam, disarmPlain, hroll]
  · simp [disarmCam, disarmPlain, hroll]

/-- Witness for C5 (amended): `arm(2, 5)` then `disarm` from the default
state, with the listed residue; a second `disarm` changes nothing. -/
theorem c5_arm_disarm_roundtrip_witness :
    ∃ s1, armCam { } (some 2) (some 5) = .ok s1
      ∧ disarmCam s1 =
          { exposureTime := 2, exposureNumber := 5, endAcquisition := true }
      ∧ disarmCam (disarmCam s1) = disarmCam s1 :=
  c5_arm_disarm_roundtrip { } (some 2) (some 5) rfl rfl

/-- `roll_on`'s fresh start always leaves the camera rolling. -/
theorem rollOnFresh_rolling (s : CamState) (fps : Option ℚ) :
    (rollOnFresh s fps).rolling = true := rfl

/-- `roll_on`'s fresh start with a nonzero fps sets the exposure time to the
requested time-per-frame. -/
theorem rollOnFresh_exposureTime (s : CamState) (f : ℚ) (hf : f ≠ 0) :
    (rollOnFresh s (some f)).exposureTime = 1 / f := by
  rcases hr : s.rolling <;> rcases ha : s.armed <;> rcases hb : s.doBroadcast <;>
    simp [rollOnFresh, rollFpsSet, armCam, hf, hr, ha, hb]

/--
**C6.** `roll_on` is idempotent in the (quiescent) rolling state: if the
camera is rolling and the requested fps gives a time-per-frame within 0.01
of the current exposure time, `roll_on(fps)` changes nothing; if it differs
beyond the tolerance, `roll_on` stops rolling (`roll_off`) and restarts it
with the new fps, ending rolling with exposure time `1/fps`.
-/
theorem c6_roll_on_idempotent (s : CamState) (f : ℚ)
    (hroll : s.rolling = true) (hstop : s.stopRollingFlag = false) (hf : f ≠ 0) :
    (|s.exposureTime - 1 / f| < 1 / 100 → rollOn s (some f) = s)
    ∧ (¬(|s.exposureTime - 1 / f| < 1 / 100) →
        rollOn s (some f) =
          rollOnFresh { rollOff { s with stopRollingFlag := false } with
            stopRollingFlag := false } (some f)
        ∧ (rollOn s (some f)).rolling = true
        ∧ (rollOn s (some f)).exposureTime = 1 / f) := by
  constructor
  · intro htol
    have h1 : rollOn s (some f) = { s with stopRollingFlag := false } := by
      simp only [rollOn]
      rw [if_pos (show (CamState.rolling { s with stopRollingFlag := false }) = true
        from hroll)]
      rw [if_pos (show |CamState.exposureTime { s with stopRollingFlag := false } -
        1 / f| < 1 / 100 from htol)]
    rw [h1]
    cases s
    simp_all
  · intro htol
    have h1 : rollOn s (some f) =
        rollOnFresh { rollOff { s with stopRollingFlag := false } with
          stopRollingFlag := false } (some f) := by
      simp only [rollOn]
      rw [if_pos (show (CamState.rolling { s with stopRollingFlag := false }) = true
        from hroll)]
      rw [if_neg (show ¬(|CamState.exposureTime { s with stopRollingFlag := false } -
        1 / f| < 1 / 100) from htol)]
    exact ⟨h1, by rw [h1, rollOnFresh_rolling],
      by rw [h1, rollOnFresh_exposureTime _ _ hf]⟩

attribute [local semireducible] Rat.mul Rat.add Rat.sub Rat.inv in
/-- Witness for C6: at 5 fps with exposure time `1/5`, `roll_on(5)` is a
no-op; with exposure time `1`, `roll_on(5)` restarts rolling and sets the
exposure time to `1/5`. -/
theorem c6_roll_on_idempotent_witness :
    rollOn { rolling := true, exposureTime := 1/5 } (some 5) =
        { rolling := true, exposureTime := 1/5 }
    ∧ (rollOn { rolling := true, exposureTime := 1 } (some 5)).rolling = true
    ∧ (rollOn { rolling := true, exposureTime := 1 } (some 5)).exposureTime = 1/5 :=
  ⟨(c6_roll_on_idempotent { rolling := true, exposureTime := 1/5 } 5 rfl rfl
      (by decide)).1 (by decide),
    ((c6_roll_on_idempotent { rolling := true, exposureTime := 1 } 5 rfl rfl
      (by decide)).2 (by decide)).2.1,
    ((c6_roll_on_idempotent { rolling := true, exposureTime := 1 } 5 rfl rfl
      (by decide)).2 (by decide)).2.2⟩
